import Mathlib

/-!
Shallow embedding of the sensing-and-state core of `src/main.cpp`
("Magic Hands" / human-circuit installation sketch).

Modelling conventions:
* Machine integers: raw analog readings (`analogRead`, pot values) are ADC
  values in 0–1023 and the capacitive raw magnitudes are non-negative counts,
  so they are embedded as `Nat`; C `int` division on these non-negative
  values coincides with `Nat` division.
* `unsigned long` millisecond arithmetic (`curMillis - prev`) is embedded by
  `usub`, subtraction modulo 2^32, exactly C's unsigned wrap-around.
* The mutable globals of the sketch become the fields of `SensorState`;
  every C function that mutates globals becomes a Lean function
  `SensorState → ... → SensorState`.
* Hardware sinks: `digitalWrite` on the two relay pins and the three LED
  pins is embedded as writes to the corresponding `Bool` fields
  (`HIGH = true`, `LOW = false`); `Serial.println` appends to `serialLines`.
  The LCD display sinks (`updateThresholdDisplay`, `updateValueDisplay`,
  and the `lcd.print` calls) only write characters to the LCD and read no
  state that feeds back into the logic; of these only `updateActiveDisplay`
  is modelled (through `activeDisplay` and its invocation counter), because
  the claims speak about its firing discipline.  `ledUpdateCount` and
  `activeDisplayUpdateCount` are instrumentation counting how often the
  corresponding render side effect fired.
-/

namespace HumanCircuit

/-- The `unsigned long` modulus (32-bit on the AVR/Arduino targets). -/
def UINT32MOD : Nat := 4294967296

/-- C `unsigned long` subtraction `a - b` (wrap-around modulo 2^32). -/
def usub (a b : Nat) : Nat :=
  (a % UINT32MOD + (UINT32MOD - b % UINT32MOD)) % UINT32MOD

/-- Embeds `const int ThresholdBufferSize = 20`. -/
def ThresholdBufferSize : Nat := 20

/-- Embeds `const int minCapThreshold = 0`. -/
def minCapThreshold : Nat := 0

/-- Embeds `const int maxCapThreshold = 15000`. -/
def maxCapThreshold : Nat := 15000

/-- Embeds `const int SensorCheckInterval = 50`. -/
def SensorCheckInterval : Nat := 50

/-- Embeds `const int ThresholdUpdateInterval = 25`. -/
def ThresholdUpdateInterval : Nat := 25

/-- Embeds `const int ImpCheckBufferInterval = 500`. -/
def ImpCheckBufferInterval : Nat := 500

/-- Embeds `const int CapCheckBufferInterval = 500`. -/
def CapCheckBufferInterval : Nat := 500

/-- Embeds `enum OutputState`. -/
inductive OutputState where
  | OUTPUT_INIT
  | IDLE
  | LEFT
  | RIGHT
  | BOTH
  | JOINED
deriving DecidableEq, Repr

/-- Embeds `enum SensingState`. -/
inductive SensingState where
  | SENSING_INIT
  | CAPACITIVE
  | IMPEDENCE
deriving DecidableEq, Repr

/-- The mutable globals of the sketch (plus instrumentation counters for the
render side effects, and the serial output trace). -/
structure SensorState where
  curOutputState : OutputState
  curSensingState : SensingState
  curMillis : Nat
  prevSensorCheckMillis : Nat
  prevThresholdUpdateMillis : Nat
  prevCapCheckBufferMillis : Nat
  prevImpCheckBufferMillis : Nat
  curCapLeftThreshold : Nat
  curCapRightThreshold : Nat
  curImpThreshold : Nat
  capLeftValue : Nat
  capRightValue : Nat
  impedenceValue : Nat
  capLeftActive : Bool
  capRightActive : Bool
  capLeftThresholdBuffer : List Nat
  capRightThresholdBuffer : List Nat
  impThresholdBuffer : List Nat
  thresholdBufferIndex : Nat
  relay1 : Bool
  relay2 : Bool
  capLLed : Bool
  capRLed : Bool
  impLed : Bool
  activeDisplay : String
  serialLines : List String
  ledUpdateCount : Nat
  activeDisplayUpdateCount : Nat
deriving DecidableEq, Repr

/-- Arduino's `map(x, in_min, in_max, out_min, out_max)`
`= (x - in_min) * (out_max - out_min) / (in_max - in_min) + out_min`;
every use in this sketch has `0 = in_min ≤ x ≤ in_max` and
`out_min = 0 ≤ out_max`, where C `long` division agrees with `Nat`
division. -/
def arduinoMap (x inMin inMax outMin outMax : Nat) : Nat :=
  (x - inMin) * (outMax - outMin) / (inMax - inMin) + outMin

/-- Embeds `bufferedThresholdRead(buffer, PIN)`: writes the fresh sample at the
shared cursor, then returns the buffer together with the truncated mean of
all `ThresholdBufferSize` slots (`total / ThresholdBufferSize`). -/
def bufferedThresholdRead (buffer : List Nat) (idx : Nat) (raw : Nat) :
    List Nat × Nat :=
  let b := buffer.set idx raw
  (b, b.sum / ThresholdBufferSize)

/-- Cursor advance at the end of `updateThresholds`:
`thresholdBufferIndex++; if (thresholdBufferIndex >= ThresholdBufferSize) thresholdBufferIndex = 0;`. -/
def nextBufferIndex (i : Nat) : Nat :=
  if i + 1 ≥ ThresholdBufferSize then 0 else i + 1

/-- Embeds `updateThresholds()`; the three pot samples `lp, rp, ip` are the
`analogRead(CAP_L_POT)`, `analogRead(CAP_R_POT)`, `analogRead(IMP_POT)`
values of this calibration tick.  (Its trailing `updateThresholdDisplay()`
call only writes to the LCD and is not modelled.) -/
def updateThresholds (s : SensorState) (lp rp ip : Nat) : SensorState :=
  let lRead := bufferedThresholdRead s.capLeftThresholdBuffer s.thresholdBufferIndex lp
  let rRead := bufferedThresholdRead s.capRightThresholdBuffer s.thresholdBufferIndex rp
  let iRead := bufferedThresholdRead s.impThresholdBuffer s.thresholdBufferIndex ip
  { s with
    curCapLeftThreshold := arduinoMap lRead.2 0 1023 minCapThreshold maxCapThreshold,
    capLeftThresholdBuffer := lRead.1,
    curCapRightThreshold := arduinoMap rRead.2 0 1023 minCapThreshold maxCapThreshold,
    capRightThresholdBuffer := rRead.1,
    curImpThreshold := iRead.2,
    impThresholdBuffer := iRead.1,
    thresholdBufferIndex := nextBufferIndex s.thresholdBufferIndex }

/-- The LED pattern written by the `switch` in `updateLEDs()`
(`capLLed, capRLed, impLed`); the `default` arm covers `IDLE` and
`OUTPUT_INIT` (all off). -/
def ledsFor : OutputState → Bool × Bool × Bool
  | .LEFT => (true, false, false)
  | .RIGHT => (false, true, false)
  | .BOTH => (true, true, false)
  | .JOINED => (false, false, true)
  | _ => (false, false, false)

/-- Embeds `updateLEDs()`. -/
def updateLEDs (s : SensorState) : SensorState :=
  { s with
    capLLed := (ledsFor s.curOutputState).1,
    capRLed := (ledsFor s.curOutputState).2.1,
    impLed := (ledsFor s.curOutputState).2.2,
    ledUpdateCount := s.ledUpdateCount + 1 }

/-- The string written by `updateActiveDisplay()`'s `sprintf` for each state
(`"%4s | %4s | %4s"`; the `switch` has no `OUTPUT_INIT` arm, so the previous
string is kept there). -/
def activeDisplayFor : OutputState → String → String
  | .LEFT, _ => " ON  |      |     "
  | .RIGHT, _ => "     |  ON  |     "
  | .BOTH, _ => " ON  |  ON  |     "
  | .JOINED, _ => "     |      |  ON "
  | .IDLE, _ => "     |      |     "
  | .OUTPUT_INIT, old => old

/-- Embeds `updateActiveDisplay()`. -/
def updateActiveDisplay (s : SensorState) : SensorState :=
  { s with
    activeDisplay := activeDisplayFor s.curOutputState s.activeDisplay,
    activeDisplayUpdateCount := s.activeDisplayUpdateCount + 1 }

/-- Embeds `updateOutputState(newOutputState)`: guarded by the equality check, so
the LED/active-display renders run only on an actual change. -/
def updateOutputState (s : SensorState) (newOutputState : OutputState) :
    SensorState :=
  if s.curOutputState ≠ newOutputState then
    updateActiveDisplay (updateLEDs { s with curOutputState := newOutputState })
  else s

/-- The serial line printed by `sendOutputState()` for each output state
(the `default` arm prints `"[000]"`, covering `IDLE` and `OUTPUT_INIT`). -/
def outputCode : OutputState → String
  | .LEFT => "[100]"
  | .RIGHT => "[010]"
  | .BOTH => "[110]"
  | .JOINED => "[001]"
  | _ => "[000]"

/-- Embeds `sendOutputState()`. -/
def sendOutputState (s : SensorState) : SensorState :=
  { s with serialLines := s.serialLines ++ [outputCode s.curOutputState] }

/-- Embeds `updateSensingState(newSensingState)`: no-op on a self-transition; on a
change, entering `CAPACITIVE` drives both relays `HIGH` and resets the
capacitive debounce baseline, entering `IMPEDENCE` drives both relays `LOW`
and resets the impedance debounce baseline (the `default` arm, reachable
only for `SENSING_INIT`, drives both relays `HIGH`). -/
def updateSensingState (s : SensorState) (newSensingState : SensingState) :
    SensorState :=
  if s.curSensingState ≠ newSensingState then
    match newSensingState with
    | .CAPACITIVE =>
        { s with curSensingState := newSensingState,
                 relay1 := true, relay2 := true,
                 prevCapCheckBufferMillis := s.curMillis }
    | .IMPEDENCE =>
        { s with curSensingState := newSensingState,
                 relay1 := false, relay2 := false,
                 prevImpCheckBufferMillis := s.curMillis }
    | .SENSING_INIT =>
        { s with curSensingState := newSensingState,
                 relay1 := true, relay2 := true }
  else s

/-- Embeds `capacitiveCheck()`; `leftRaw, rightRaw` are the two
`capacitiveSensorRaw(CapSensorSamples)` readings of this tick. -/
def capacitiveCheck (s : SensorState) (leftRaw rightRaw : Nat) : SensorState :=
  let s := { s with
    capLeftValue := leftRaw,
    capRightValue := rightRaw,
    capLeftActive := decide (leftRaw > s.curCapLeftThreshold),
    capRightActive := decide (rightRaw > s.curCapRightThreshold) }
  if s.capLeftActive && !s.capRightActive then
    updateOutputState s .LEFT
  else if !s.capLeftActive && s.capRightActive then
    updateOutputState s .RIGHT
  else if s.capLeftActive && s.capRightActive then
    let s := updateOutputState s .BOTH
    if usub s.curMillis s.prevCapCheckBufferMillis > CapCheckBufferInterval then
      updateSensingState s .IMPEDENCE
    else s
  else
    updateOutputState s .IDLE

/-- Embeds `impedenceCheck()`; `impRaw` is the `analogRead(IMP_CHECK)` reading of
this tick. -/
def impedenceCheck (s : SensorState) (impRaw : Nat) : SensorState :=
  let s := { s with impedenceValue := impRaw }
  if s.impedenceValue < s.curImpThreshold then
    let s := updateOutputState s .JOINED
    { s with prevImpCheckBufferMillis := s.curMillis }
  else if s.curOutputState ≠ .JOINED ∧
      usub s.curMillis s.prevImpCheckBufferMillis < ImpCheckBufferInterval then
    s
  else
    updateSensingState s .CAPACITIVE

/-- Embeds `checkSensors()` (its trailing `updateValueDisplay()` call only writes
to the LCD and is not modelled); the `switch` has no `SENSING_INIT` arm. -/
def checkSensors (s : SensorState) (leftRaw rightRaw impRaw : Nat) :
    SensorState :=
  let s1 :=
    match s.curSensingState with
    | .CAPACITIVE => capacitiveCheck s leftRaw rightRaw
    | .IMPEDENCE => impedenceCheck s impRaw
    | .SENSING_INIT => s
  sendOutputState s1

/-- The calibration phase of one `loop()` iteration: refresh `curMillis`
and, when the threshold interval has elapsed, run `updateThresholds`
(recording the tick time first, as the C code does). -/
def calibPhase (s : SensorState) (now lp rp ip : Nat) : SensorState :=
  let s := { s with curMillis := now }
  if usub s.curMillis s.prevThresholdUpdateMillis > ThresholdUpdateInterval then
    updateThresholds { s with prevThresholdUpdateMillis := s.curMillis } lp rp ip
  else s

/-- One full `loop()` iteration: calibration phase, then (when the sensor
interval has elapsed) the sensor-check phase.  `now` is this iteration's
`millis()` reading; `lp, rp, ip` the pot samples; `lRaw, rRaw, iRaw` the
sensor samples. -/
def loopTick (s : SensorState) (now lp rp ip lRaw rRaw iRaw : Nat) :
    SensorState :=
  let s := calibPhase s now lp rp ip
  if usub s.curMillis s.prevSensorCheckMillis > SensorCheckInterval then
    checkSensors { s with prevSensorCheckMillis := s.curMillis } lRaw rRaw iRaw
  else s

/-- The C globals as initialized at their declarations (buffers are also
re-zeroed by the loop in `setup()`); output pins start `LOW` after
`pinMode(..., OUTPUT)`. -/
def initialState : SensorState where
  curOutputState := .OUTPUT_INIT
  curSensingState := .SENSING_INIT
  curMillis := 0
  prevSensorCheckMillis := 0
  prevThresholdUpdateMillis := 0
  prevCapCheckBufferMillis := 0
  prevImpCheckBufferMillis := 0
  curCapLeftThreshold := maxCapThreshold
  curCapRightThreshold := maxCapThreshold
  curImpThreshold := 0
  capLeftValue := 0
  capRightValue := 0
  impedenceValue := 0
  capLeftActive := false
  capRightActive := false
  capLeftThresholdBuffer := List.replicate ThresholdBufferSize 0
  capRightThresholdBuffer := List.replicate ThresholdBufferSize 0
  impThresholdBuffer := List.replicate ThresholdBufferSize 0
  thresholdBufferIndex := 0
  relay1 := false
  relay2 := false
  capLLed := false
  capRLed := false
  impLed := false
  activeDisplay := ""
  serialLines := []
  ledUpdateCount := 0
  activeDisplayUpdateCount := 0

/-- Embeds `setup()` (LCD initialization omitted): select the capacitive path,
set the output state to `IDLE`, then snapshot `millis()` into `curMillis`
and `prevThresholdUpdateMillis`. -/
def setup (now : Nat) : SensorState :=
  let s := updateSensingState initialState .CAPACITIVE
  let s := updateOutputState s .IDLE
  { s with curMillis := now, prevThresholdUpdateMillis := now }

/-- States reachable by the sketch: the state after `setup()` (for some
boot-time `millis()` reading), closed under `loop()` iterations with
arbitrary sensor/pot inputs and clock readings. -/
inductive Reachable : SensorState → Prop
  | boot (now : Nat) : Reachable (setup now)
  | tick (s : SensorState) (now lp rp ip lRaw rRaw iRaw : Nat) :
      Reachable s → Reachable (loopTick s now lp rp ip lRaw rRaw iRaw)

/-- Runs of `loop()` iterations on which, at every tick, the impedance raw
sample is strictly below the current impedance threshold (the threshold in
force after this tick's calibration phase). -/
inductive BelowRun : SensorState → SensorState → Prop
  | refl (s : SensorState) : BelowRun s s
  | tick (s t : SensorState) (now lp rp ip lRaw rRaw iRaw : Nat)
      (hbelow : iRaw < (calibPhase s now lp rp ip).curImpThreshold)
      (h : BelowRun (loopTick s now lp rp ip lRaw rRaw iRaw) t) :
      BelowRun s t

/-- Single-channel model of the shared circular threshold buffer: fold the
sample stream through `List.set` at the shared cursor, advancing the cursor
with `nextBufferIndex` once per sample. -/
def runBuf : List Nat → Nat → List Nat → List Nat × Nat
  | b, i, [] => (b, i)
  | b, i, x :: xs => runBuf (b.set i x) (nextBufferIndex i) xs

/-- A run of calibration ticks: each element is one tick's
`(left pot, right pot, imp pot)` sample triple. -/
def runThresholds : SensorState → List (Nat × Nat × Nat) → SensorState
  | s, [] => s
  | s, t :: ts => runThresholds (updateThresholds s t.1 t.2.1 t.2.2) ts

/-- A concrete capacitive-mode state used to instantiate theorems. -/
def sampleCapState : SensorState :=
  { initialState with
    curOutputState := .IDLE
    curSensingState := .CAPACITIVE
    curMillis := 1000
    prevSensorCheckMillis := 900
    prevThresholdUpdateMillis := 1000
    prevCapCheckBufferMillis := 1000
    curCapLeftThreshold := 100
    curCapRightThreshold := 100
    curImpThreshold := 200
    relay1 := true
    relay2 := true }

/-- Variant of `sampleCapState` with a capacitive debounce baseline 601ms in the past. -/
def sampleCapState2 : SensorState :=
  { sampleCapState with curMillis := 1601, prevCapCheckBufferMillis := 1000 }

/-- A concrete impedance-mode state, already `JOINED`, whose impedance
debounce baseline is only 40ms old. -/
def sampleImpState : SensorState :=
  { initialState with
    curOutputState := .JOINED
    curSensingState := .IMPEDENCE
    curMillis := 1000
    prevSensorCheckMillis := 900
    prevThresholdUpdateMillis := 1000
    prevImpCheckBufferMillis := 960
    curImpThreshold := 200
    relay1 := false
    relay2 := false }

/-! ### Helper lemmas: field projections of the guarded update functions -/

@[simp] lemma updateOutputState_curOutputState (s : SensorState) (o : OutputState) :
    (updateOutputState s o).curOutputState = o := by
  unfold updateOutputState updateActiveDisplay updateLEDs
  split
  · rfl
  · next h => push_neg at h; exact h

@[simp] lemma updateOutputState_curSensingState (s : SensorState) (o : OutputState) :
    (updateOutputState s o).curSensingState = s.curSensingState := by
  unfold updateOutputState updateActiveDisplay updateLEDs; split <;> rfl

@[simp] lemma updateOutputState_curMillis (s : SensorState) (o : OutputState) :
    (updateOutputState s o).curMillis = s.curMillis := by
  unfold updateOutputState updateActiveDisplay updateLEDs; split <;> rfl

@[simp] lemma updateOutputState_prevCapCheckBufferMillis (s : SensorState) (o : OutputState) :
    (updateOutputState s o).prevCapCheckBufferMillis = s.prevCapCheckBufferMillis := by
  unfold updateOutputState updateActiveDisplay updateLEDs; split <;> rfl

@[simp] lemma updateOutputState_prevImpCheckBufferMillis (s : SensorState) (o : OutputState) :
    (updateOutputState s o).prevImpCheckBufferMillis = s.prevImpCheckBufferMillis := by
  unfold updateOutputState updateActiveDisplay updateLEDs; split <;> rfl

@[simp] lemma updateOutputState_capLeftActive (s : SensorState) (o : OutputState) :
    (updateOutputState s o).capLeftActive = s.capLeftActive := by
  unfold updateOutputState updateActiveDisplay updateLEDs; split <;> rfl

@[simp] lemma updateOutputState_capRightActive (s : SensorState) (o : OutputState) :
    (updateOutputState s o).capRightActive = s.capRightActive := by
  unfold updateOutputState updateActiveDisplay updateLEDs; split <;> rfl

@[simp] lemma updateOutputState_relay1 (s : SensorState) (o : OutputState) :
    (updateOutputState s o).relay1 = s.relay1 := by
  unfold updateOutputState updateActiveDisplay updateLEDs; split <;> rfl

@[simp] lemma updateOutputState_relay2 (s : SensorState) (o : OutputState) :
    (updateOutputState s o).relay2 = s.relay2 := by
  unfold updateOutputState updateActiveDisplay updateLEDs; split <;> rfl

@[simp] lemma updateOutputState_serialLines (s : SensorState) (o : OutputState) :
    (updateOutputState s o).serialLines = s.serialLines := by
  unfold updateOutputState updateActiveDisplay updateLEDs; split <;> rfl

@[simp] lemma updateSensingState_curOutputState (s : SensorState) (m : SensingState) :
    (updateSensingState s m).curOutputState = s.curOutputState := by
  unfold updateSensingState; split
  · cases m <;> rfl
  · rfl

@[simp] lemma updateSensingState_curMillis (s : SensorState) (m : SensingState) :
    (updateSensingState s m).curMillis = s.curMillis := by
  unfold updateSensingState; split
  · cases m <;> rfl
  · rfl

@[simp] lemma updateSensingState_capLeftActive (s : SensorState) (m : SensingState) :
    (updateSensingState s m).capLeftActive = s.capLeftActive := by
  unfold updateSensingState; split
  · cases m <;> rfl
  · rfl

@[simp] lemma updateSensingState_capRightActive (s : SensorState) (m : SensingState) :
    (updateSensingState s m).capRightActive = s.capRightActive := by
  unfold updateSensingState; split
  · cases m <;> rfl
  · rfl

@[simp] lemma updateSensingState_serialLines (s : SensorState) (m : SensingState) :
    (updateSensingState s m).serialLines = s.serialLines := by
  unfold updateSensingState; split
  · cases m <;> rfl
  · rfl

@[simp] lemma updateSensingState_ledUpdateCount (s : SensorState) (m : SensingState) :
    (updateSensingState s m).ledUpdateCount = s.ledUpdateCount := by
  unfold updateSensingState; split
  · cases m <;> rfl
  · rfl

@[simp] lemma updateSensingState_activeDisplayUpdateCount (s : SensorState) (m : SensingState) :
    (updateSensingState s m).activeDisplayUpdateCount = s.activeDisplayUpdateCount := by
  unfold updateSensingState; split
  · cases m <;> rfl
  · rfl

/-! ### C9: serial codes -/

/-- C9: the serial output maps each output state to a fixed textual code —
Idle to "[000]", Left to "[100]", Right to "[010]", Both to "[110]",
Joined to "[001]" — and no other code is ever emitted (`sendOutputState`
always appends exactly one of these five codes). -/
theorem sendOutputState_c9 :
    outputCode .IDLE = "[000]" ∧ outputCode .LEFT = "[100]" ∧
    outputCode .RIGHT = "[010]" ∧ outputCode .BOTH = "[110]" ∧
    outputCode .JOINED = "[001]" ∧
    (∀ o : OutputState,
      outputCode o = "[000]" ∨ outputCode o = "[100]" ∨ outputCode o = "[010]" ∨
      outputCode o = "[110]" ∨ outputCode o = "[001]") ∧
    (∀ s : SensorState,
      (sendOutputState s).serialLines = s.serialLines ++ [outputCode s.curOutputState]) := by
  refine ⟨rfl, rfl, rfl, rfl, rfl, ?_, fun s => rfl⟩
  intro o
  cases o <;> simp [outputCode]

/-! ### C2: capacitive-mode output state table -/

/-- C2: in Capacitive mode a sensor-check tick computes
`leftActive = leftRaw > capLeftThreshold` and
`rightActive = rightRaw > capRightThreshold` with strict greater-than, and
sets the output state as a total function of the pair: left-only `LEFT`,
right-only `RIGHT`, both `BOTH`, neither `IDLE`. -/
theorem capacitiveCheck_c2 (s : SensorState) (l r : Nat) :
    (capacitiveCheck s l r).capLeftActive = decide (l > s.curCapLeftThreshold) ∧
    (capacitiveCheck s l r).capRightActive = decide (r > s.curCapRightThreshold) ∧
    (capacitiveCheck s l r).curOutputState =
      (if l > s.curCapLeftThreshold then
         if r > s.curCapRightThreshold then .BOTH else .LEFT
       else
         if r > s.curCapRightThreshold then .RIGHT else .IDLE) := by
  by_cases hl : l > s.curCapLeftThreshold <;> by_cases hr : r > s.curCapRightThreshold <;>
    simp [capacitiveCheck, hl, hr] <;> split <;> simp

@[simp] lemma updateSensingState_curSensingState (s : SensorState) (m : SensingState) :
    (updateSensingState s m).curSensingState = m := by
  unfold updateSensingState; split
  · cases m <;> rfl
  · next h => push_neg at h; exact h

lemma updateSensingState_toCap (s : SensorState) (h : s.curSensingState ≠ .CAPACITIVE) :
    updateSensingState s .CAPACITIVE =
      { s with curSensingState := .CAPACITIVE, relay1 := true, relay2 := true,
               prevCapCheckBufferMillis := s.curMillis } := by
  unfold updateSensingState
  rw [if_pos h]

lemma updateSensingState_toImp (s : SensorState) (h : s.curSensingState ≠ .IMPEDENCE) :
    updateSensingState s .IMPEDENCE =
      { s with curSensingState := .IMPEDENCE, relay1 := false, relay2 := false,
               prevImpCheckBufferMillis := s.curMillis } := by
  unfold updateSensingState
  rw [if_pos h]

@[simp] lemma updateThresholds_curSensingState (s : SensorState) (lp rp ip : Nat) :
    (updateThresholds s lp rp ip).curSensingState = s.curSensingState := rfl

@[simp] lemma updateThresholds_curOutputState (s : SensorState) (lp rp ip : Nat) :
    (updateThresholds s lp rp ip).curOutputState = s.curOutputState := rfl

@[simp] lemma updateThresholds_curMillis (s : SensorState) (lp rp ip : Nat) :
    (updateThresholds s lp rp ip).curMillis = s.curMillis := rfl

@[simp] lemma updateThresholds_relay1 (s : SensorState) (lp rp ip : Nat) :
    (updateThresholds s lp rp ip).relay1 = s.relay1 := rfl

@[simp] lemma updateThresholds_relay2 (s : SensorState) (lp rp ip : Nat) :
    (updateThresholds s lp rp ip).relay2 = s.relay2 := rfl

@[simp] lemma updateThresholds_serialLines (s : SensorState) (lp rp ip : Nat) :
    (updateThresholds s lp rp ip).serialLines = s.serialLines := rfl

@[simp] lemma calibPhase_curSensingState (s : SensorState) (now lp rp ip : Nat) :
    (calibPhase s now lp rp ip).curSensingState = s.curSensingState := by
  simp only [calibPhase]
  split <;> simp

@[simp] lemma calibPhase_curMillis (s : SensorState) (now lp rp ip : Nat) :
    (calibPhase s now lp rp ip).curMillis = now := by
  simp only [calibPhase]
  split <;> simp

/-! ### C10: impedance mode never demotes the output state -/

lemma impedenceCheck_output (s : SensorState) (i : Nat) :
    (impedenceCheck s i).curOutputState = .JOINED ∨
    (impedenceCheck s i).curOutputState = s.curOutputState := by
  simp only [impedenceCheck]
  split
  · left; simp
  · split
    · right; rfl
    · right; simp

/-- C10: while the sensing mode is Impedance, a sensor-check tick never
assigns an output state other than `JOINED`: the output state either
becomes `JOINED` or is left unchanged. -/
theorem impedenceCheck_c10 :
    (∀ (s : SensorState) (i : Nat),
      (impedenceCheck s i).curOutputState = .JOINED ∨
      (impedenceCheck s i).curOutputState = s.curOutputState) ∧
    (∀ (s : SensorState) (l r i : Nat), s.curSensingState = .IMPEDENCE →
      (checkSensors s l r i).curOutputState = .JOINED ∨
      (checkSensors s l r i).curOutputState = s.curOutputState) := by
  refine ⟨impedenceCheck_output, ?_⟩
  intro s l r i hmode
  simpa [checkSensors, hmode, sendOutputState] using impedenceCheck_output s i

/-- C10 witness: a concrete impedance-mode tick (already `JOINED`, reading
above threshold) satisfies the disjunction. -/
theorem impedenceCheck_c10_witness :
    sampleImpState.curSensingState = .IMPEDENCE ∧
    ((checkSensors sampleImpState 0 0 300).curOutputState = .JOINED ∨
     (checkSensors sampleImpState 0 0 300).curOutputState = sampleImpState.curOutputState) :=
  ⟨rfl, impedenceCheck_c10.2 sampleImpState 0 0 300 rfl⟩

/-! ### C7: a continuous join never times out -/

lemma impedenceCheck_below (s : SensorState) (i : Nat) (h : i < s.curImpThreshold) :
    (impedenceCheck s i).curOutputState = .JOINED ∧
    (impedenceCheck s i).prevImpCheckBufferMillis = s.curMillis ∧
    (impedenceCheck s i).curSensingState = s.curSensingState := by
  simp [impedenceCheck, h]

lemma loopTick_below_mode (s : SensorState) (now lp rp ip lRaw rRaw iRaw : Nat)
    (hmode : s.curSensingState = .IMPEDENCE)
    (hbelow : iRaw < (calibPhase s now lp rp ip).curImpThreshold) :
    (loopTick s now lp rp ip lRaw rRaw iRaw).curSensingState = .IMPEDENCE := by
  have hm1 : (calibPhase s now lp rp ip).curSensingState = .IMPEDENCE := by
    simpa using hmode
  simp only [loopTick]
  split
  · simp only [checkSensors, sendOutputState, hm1]
    rw [(impedenceCheck_below _ iRaw (by simpa using hbelow)).2.2]
  · exact hm1

/-- C7: every impedance-mode tick with `impedanceRaw < impThreshold` sets
the output state to `JOINED`, resets the impedance debounce baseline to the
tick's `now`, and leaves the sensing mode unchanged; consequently, along
any run of loop iterations on which the impedance reading stays below the
current threshold, a system in Impedance mode never reverts to Capacitive. -/
theorem impedenceCheck_c7 :
    (∀ (s : SensorState) (i : Nat), i < s.curImpThreshold →
      (impedenceCheck s i).curOutputState = .JOINED ∧
      (impedenceCheck s i).prevImpCheckBufferMillis = s.curMillis ∧
      (impedenceCheck s i).curSensingState = s.curSensingState) ∧
    (∀ s t : SensorState, BelowRun s t → s.curSensingState = .IMPEDENCE →
      t.curSensingState = .IMPEDENCE) := by
  refine ⟨impedenceCheck_below, ?_⟩
  intro s t hrun
  induction hrun with
  | refl s => exact id
  | tick s t now lp rp ip lRaw rRaw iRaw hbelow h ih =>
      intro hmode
      exact ih (loopTick_below_mode s now lp rp ip lRaw rRaw iRaw hmode hbelow)

/-- C7 witness: a one-tick below-threshold run from a concrete impedance
state stays in Impedance mode. -/
theorem impedenceCheck_c7_witness :
    sampleImpState.curSensingState = .IMPEDENCE ∧
    (50 : Nat) < (calibPhase sampleImpState 1000 0 0 0).curImpThreshold ∧
    (loopTick sampleImpState 1000 0 0 0 0 0 50).curSensingState = .IMPEDENCE := by
  refine ⟨rfl, by decide, ?_⟩
  exact impedenceCheck_c7.2 sampleImpState (loopTick sampleImpState 1000 0 0 0 0 0 50)
    (BelowRun.tick sampleImpState _ 1000 0 0 0 0 0 50 (by decide)
      (BelowRun.refl _)) rfl

/-! ### C1: behaviour on an above-threshold impedance reading -/

/-- C1 counterexample: in Impedance mode with the output state already
`JOINED`, an above-threshold reading arriving only 40ms after the last
debounce reset does NOT "do nothing": the code immediately requests the
transition back to Capacitive (the claim says the mode stays unchanged
whenever the state is already Joined). -/
theorem impedenceCheck_c1_cex :
    sampleImpState.curSensingState = .IMPEDENCE ∧
    sampleImpState.curOutputState = .JOINED ∧
    sampleImpState.curImpThreshold ≤ 300 ∧
    usub sampleImpState.curMillis sampleImpState.prevImpCheckBufferMillis <
      ImpCheckBufferInterval ∧
    (impedenceCheck sampleImpState 300).curSensingState = .CAPACITIVE := by
  exact ⟨rfl, rfl, by decide, by decide, by decide⟩

/-- C1 (amended): in Impedance mode, a tick with
`impedanceRaw ≥ impThreshold` does nothing (all state except the recorded
raw sample unchanged) precisely when the output state is NOT `Joined` AND
the 500ms impedance debounce has not yet elapsed; when the output state is
`Joined` or the debounce has expired, it requests the transition back to
Capacitive (leaving the output state itself unchanged). -/
theorem impedenceCheck_c1_amended (s : SensorState) (i : Nat)
    (hmode : s.curSensingState = .IMPEDENCE) (hge : s.curImpThreshold ≤ i) :
    ((s.curOutputState ≠ .JOINED ∧
        usub s.curMillis s.prevImpCheckBufferMillis < ImpCheckBufferInterval) →
      impedenceCheck s i = { s with impedenceValue := i }) ∧
    ((s.curOutputState = .JOINED ∨
        ImpCheckBufferInterval ≤ usub s.curMillis s.prevImpCheckBufferMillis) →
      (impedenceCheck s i).curSensingState = .CAPACITIVE ∧
      (impedenceCheck s i).curOutputState = s.curOutputState ∧
      (impedenceCheck s i).relay1 = true ∧
      (impedenceCheck s i).relay2 = true ∧
      (impedenceCheck s i).prevCapCheckBufferMillis = s.curMillis) := by
  have hnotlt : ¬ i < s.curImpThreshold := Nat.not_lt.mpr hge
  constructor
  · intro hcase
    unfold impedenceCheck
    rw [if_neg (by simpa using hnotlt), if_pos (by simpa using hcase)]
  · intro hcase
    have hcond : ¬ (({ s with impedenceValue := i } : SensorState).curOutputState ≠ .JOINED ∧
        usub ({ s with impedenceValue := i } : SensorState).curMillis
          ({ s with impedenceValue := i } : SensorState).prevImpCheckBufferMillis <
          ImpCheckBufferInterval) := by
      simp only []
      rcases hcase with hj | ht
      · intro hc; exact hc.1 hj
      · intro hc; exact absurd hc.2 (Nat.not_lt.mpr ht)
    unfold impedenceCheck
    rw [if_neg (by simpa using hnotlt), if_neg hcond]
    rw [updateSensingState_toCap _ (by simpa using hmode ▸ (by decide : SensingState.IMPEDENCE ≠ .CAPACITIVE))]
    simp

/-- C1 witness for the amended theorem: the concrete already-`JOINED` state
with a 40ms-old debounce baseline transitions back to Capacitive on an
above-threshold reading. -/
theorem impedenceCheck_c1_witness :
    sampleImpState.curSensingState = .IMPEDENCE ∧
    sampleImpState.curImpThreshold ≤ 300 ∧
    (impedenceCheck sampleImpState 300).curSensingState = .CAPACITIVE ∧
    (impedenceCheck sampleImpState 300).curOutputState = sampleImpState.curOutputState := by
  refine ⟨rfl, by decide, ?_, ?_⟩
  · exact ((impedenceCheck_c1_amended sampleImpState 300 rfl (by decide)).2 (Or.inl rfl)).1
  · exact ((impedenceCheck_c1_amended sampleImpState 300 rfl (by decide)).2 (Or.inl rfl)).2.1

/-! ### C4: the only route from Capacitive to Impedance -/

/-- C4: from Capacitive mode, a sensor-check tick switches the sensing mode
to Impedance exactly when both channels read strictly above their
thresholds AND strictly more than the 500ms debounce interval has elapsed
since the last Capacitive-mode eligibility reset; whenever both channels
are active the output state is `BOTH`. -/
theorem capacitiveCheck_c4 (s : SensorState) (l r i : Nat)
    (hmode : s.curSensingState = .CAPACITIVE) :
    (checkSensors s l r i).curSensingState =
      (if l > s.curCapLeftThreshold ∧ r > s.curCapRightThreshold ∧
          usub s.curMillis s.prevCapCheckBufferMillis > CapCheckBufferInterval
       then .IMPEDENCE else .CAPACITIVE) ∧
    (l > s.curCapLeftThreshold → r > s.curCapRightThreshold →
      (checkSensors s l r i).curOutputState = .BOTH) := by
  by_cases hl : l > s.curCapLeftThreshold <;>
    by_cases hr : r > s.curCapRightThreshold <;>
      by_cases ht : usub s.curMillis s.prevCapCheckBufferMillis > CapCheckBufferInterval <;>
        simp [checkSensors, capacitiveCheck, sendOutputState, hmode, hl, hr, ht]

/-- C4 witness: with both raw readings above threshold and the capacitive
debounce baseline 601ms old, the mode switches to Impedance and the output
state is `BOTH`. -/
theorem capacitiveCheck_c4_witness :
    sampleCapState2.curSensingState = .CAPACITIVE ∧
    (checkSensors sampleCapState2 500 500 0).curSensingState = .IMPEDENCE ∧
    (checkSensors sampleCapState2 500 500 0).curOutputState = .BOTH := by
  refine ⟨rfl, ?_, ?_⟩
  · rw [(capacitiveCheck_c4 sampleCapState2 500 500 0 rfl).1]; decide
  · exact (capacitiveCheck_c4 sampleCapState2 500 500 0 rfl).2 (by decide) (by decide)

/-! ### C5: render side effects fire once per actual change (corrected) -/

@[simp] lemma capacitiveCheck_serialLines (s : SensorState) (l r : Nat) :
    (capacitiveCheck s l r).serialLines = s.serialLines := by
  simp only [capacitiveCheck]
  repeat' split
  all_goals simp

@[simp] lemma impedenceCheck_serialLines (s : SensorState) (i : Nat) :
    (impedenceCheck s i).serialLines = s.serialLines := by
  simp only [impedenceCheck]
  repeat' split
  all_goals simp

/-- C5 counterexample: from a concrete capacitive-mode state already
`IDLE`, two consecutive sensor-check ticks with inactive readings change
the output state zero times, yet the serial render fires on both ticks
(the claim asserts serial output fires exactly once per actual value
change, i.e. not at all here). -/
theorem updateOutputState_c5_cex :
    (checkSensors sampleCapState 0 0 0).curOutputState = sampleCapState.curOutputState ∧
    (checkSensors (checkSensors sampleCapState 0 0 0) 0 0 0).curOutputState =
      sampleCapState.curOutputState ∧
    sampleCapState.serialLines = [] ∧
    (checkSensors (checkSensors sampleCapState 0 0 0) 0 0 0).serialLines =
      ["[000]", "[000]"] :=
  ⟨by decide, by decide, rfl, by decide⟩

/-- C5 (amended): the LED update and active-display update fire exactly
once per actual output-state change and never on a no-op re-assignment
(re-assigning the same value twice fires them exactly once); the serial
state output, by contrast, is emitted exactly once on every sensor-check
tick, whether or not the state changed. -/
theorem updateOutputState_c5_amended :
    (∀ (s : SensorState) (o : OutputState), s.curOutputState = o →
      updateOutputState s o = s) ∧
    (∀ (s : SensorState) (o : OutputState), s.curOutputState ≠ o →
      (updateOutputState s o).ledUpdateCount = s.ledUpdateCount + 1 ∧
      (updateOutputState s o).activeDisplayUpdateCount = s.activeDisplayUpdateCount + 1) ∧
    (∀ (s : SensorState) (o : OutputState),
      updateOutputState (updateOutputState s o) o = updateOutputState s o) ∧
    (∀ (s : SensorState) (l r i : Nat),
      (checkSensors s l r i).serialLines =
        s.serialLines ++ [outputCode (checkSensors s l r i).curOutputState]) := by
  have h1 : ∀ (s : SensorState) (o : OutputState), s.curOutputState = o →
      updateOutputState s o = s := by
    intro s o h
    simp [updateOutputState, h]
  refine ⟨h1, ?_, ?_, ?_⟩
  · intro s o h
    simp [updateOutputState, h, updateLEDs, updateActiveDisplay]
  · intro s o
    exact h1 _ o (updateOutputState_curOutputState s o)
  · intro s l r i
    cases hm : s.curSensingState <;> simp [checkSensors, hm, sendOutputState]

/-- C5 witness: a concrete actual change (`IDLE` to `LEFT`) fires the LED
render exactly once, and re-assigning `LEFT` again is a no-op. -/
theorem updateOutputState_c5_witness :
    sampleCapState.curOutputState ≠ .LEFT ∧
    (updateOutputState sampleCapState .LEFT).ledUpdateCount =
      sampleCapState.ledUpdateCount + 1 ∧
    updateOutputState (updateOutputState sampleCapState .LEFT) .LEFT =
      updateOutputState sampleCapState .LEFT :=
  ⟨by decide, (updateOutputState_c5_amended.2.1 sampleCapState .LEFT (by decide)).1,
    updateOutputState_c5_amended.2.2.1 sampleCapState .LEFT⟩

/-! ### C6: sensing-mode entry actions and the relay lock-step invariant -/

lemma relayEq_updateSensingState (s : SensorState) (m : SensingState)
    (h : s.relay1 = s.relay2) :
    (updateSensingState s m).relay1 = (updateSensingState s m).relay2 := by
  unfold updateSensingState; split
  · cases m <;> rfl
  · exact h

lemma relayEq_capacitiveCheck (s : SensorState) (l r : Nat) (h : s.relay1 = s.relay2) :
    (capacitiveCheck s l r).relay1 = (capacitiveCheck s l r).relay2 := by
  simp only [capacitiveCheck]
  repeat' split
  all_goals first
  | exact relayEq_updateSensingState _ _ (by simp [h])
  | simp [h]

lemma relayEq_impedenceCheck (s : SensorState) (i : Nat) (h : s.relay1 = s.relay2) :
    (impedenceCheck s i).relay1 = (impedenceCheck s i).relay2 := by
  simp only [impedenceCheck]
  repeat' split
  all_goals first
  | exact relayEq_updateSensingState _ _ (by simp [h])
  | simp [h]

lemma relayEq_checkSensors (s : SensorState) (l r i : Nat) (h : s.relay1 = s.relay2) :
    (checkSensors s l r i).relay1 = (checkSensors s l r i).relay2 := by
  cases hm : s.curSensingState <;> simp only [checkSensors, hm, sendOutputState] <;>
    first
    | exact h
    | exact relayEq_capacitiveCheck _ _ _ h
    | exact relayEq_impedenceCheck _ _ h

lemma relayEq_calibPhase (s : SensorState) (now lp rp ip : Nat)
    (h : s.relay1 = s.relay2) :
    (calibPhase s now lp rp ip).relay1 = (calibPhase s now lp rp ip).relay2 := by
  simp only [calibPhase]
  split <;> simp [h]

lemma relayEq_loopTick (s : SensorState) (now lp rp ip lRaw rRaw iRaw : Nat)
    (h : s.relay1 = s.relay2) :
    (loopTick s now lp rp ip lRaw rRaw iRaw).relay1 =
      (loopTick s now lp rp ip lRaw rRaw iRaw).relay2 := by
  simp only [loopTick]
  split
  · exact relayEq_checkSensors _ _ _ _ (by simpa using relayEq_calibPhase s now lp rp ip h)
  · exact relayEq_calibPhase s now lp rp ip h

/-- C6: a sensing-mode self-transition is a complete no-op; on an actual
change, entering Capacitive drives both relays HIGH and resets the
capacitive debounce baseline to the tick's `now`, entering Impedance
drives both relays LOW and resets the impedance debounce baseline; and in
every reachable state the two relay outputs are driven identically. -/
theorem updateSensingState_c6 :
    (∀ s : SensorState, updateSensingState s s.curSensingState = s) ∧
    (∀ s : SensorState, s.curSensingState ≠ .CAPACITIVE →
      updateSensingState s .CAPACITIVE =
        { s with curSensingState := .CAPACITIVE, relay1 := true, relay2 := true,
                 prevCapCheckBufferMillis := s.curMillis }) ∧
    (∀ s : SensorState, s.curSensingState ≠ .IMPEDENCE →
      updateSensingState s .IMPEDENCE =
        { s with curSensingState := .IMPEDENCE, relay1 := false, relay2 := false,
                 prevImpCheckBufferMillis := s.curMillis }) ∧
    (∀ s : SensorState, Reachable s → s.relay1 = s.relay2) := by
  refine ⟨?_, updateSensingState_toCap, updateSensingState_toImp, ?_⟩
  · intro s; simp [updateSensingState]
  · intro s hre
    induction hre with
    | boot now => rfl
    | tick s now lp rp ip lRaw rRaw iRaw _ ih =>
        exact relayEq_loopTick s now lp rp ip lRaw rRaw iRaw ih

/-- C6 witness: a concrete Impedance-mode state transitions into
Capacitive with both relays HIGH, and the relay lock-step invariant holds
in the boot state. -/
theorem updateSensingState_c6_witness :
    sampleImpState.curSensingState ≠ .CAPACITIVE ∧
    (updateSensingState sampleImpState .CAPACITIVE).relay1 = true ∧
    (setup 0).relay1 = (setup 0).relay2 := by
  refine ⟨by decide, ?_, updateSensingState_c6.2.2.2 (setup 0) (Reachable.boot 0)⟩
  rw [updateSensingState_c6.2.1 sampleImpState (by decide)]

/-! ### C3: the rolling calibration buffer computes the mean of the last N
samples -/

lemma set_at_append (P : List Nat) (r x : Nat) (R : List Nat) :
    (P ++ r :: R).set P.length x = P ++ x :: R := by
  induction P with
  | nil => rfl
  | cons a P ih => simp [List.set_cons_succ, ih]

lemma nextBufferIndex_lt (i : Nat) : nextBufferIndex i < ThresholdBufferSize := by
  unfold nextBufferIndex ThresholdBufferSize
  split <;> omega

lemma runBuf_append (b : List Nat) (i : Nat) (xs ys : List Nat) :
    runBuf b i (xs ++ ys) = runBuf (runBuf b i xs).1 (runBuf b i xs).2 ys := by
  induction xs generalizing b i with
  | nil => rfl
  | cons x xs ih =>
      simp only [List.cons_append, runBuf]
      exact ih (b.set i x) (nextBufferIndex i)

lemma runBuf_length (l b : List Nat) (i : Nat) :
    (runBuf b i l).1.length = b.length := by
  induction l generalizing b i with
  | nil => rfl
  | cons x xs ih =>
      simp only [runBuf]
      rw [ih]
      simp

lemma runBuf_idx (l : List Nat) (b : List Nat) (i : Nat)
    (hi : i < ThresholdBufferSize) :
    (runBuf b i l).2 = (i + l.length) % ThresholdBufferSize := by
  induction l generalizing b i with
  | nil => simp [runBuf, Nat.mod_eq_of_lt hi]
  | cons x xs ih =>
      simp only [runBuf, List.length_cons]
      rw [ih (b.set i x) (nextBufferIndex i) (nextBufferIndex_lt i)]
      unfold nextBufferIndex ThresholdBufferSize at *
      split <;> omega

lemma runBuf_fill (xs : List Nat) (P R : List Nat) (i : Nat) (hi : i = P.length)
    (hP : P.length < ThresholdBufferSize)
    (hlen : P.length + xs.length ≤ ThresholdBufferSize)
    (htot : P.length + R.length = ThresholdBufferSize) :
    runBuf (P ++ R) i xs =
      (P ++ xs ++ R.drop xs.length,
       if P.length + xs.length = ThresholdBufferSize then 0
       else P.length + xs.length) := by
  subst hi
  induction xs generalizing P R with
  | nil =>
      simp [runBuf, Nat.ne_of_lt hP]
  | cons x xs ih =>
      cases R with
      | nil =>
          exfalso
          simp at htot
          omega
      | cons r R' =>
          simp only [List.length_cons] at hlen htot
          simp only [runBuf, set_at_append]
          by_cases h20 : P.length + 1 ≥ ThresholdBufferSize
          · have hx : xs = [] := List.length_eq_zero.mp (by omega)
            have hR' : R' = [] := List.length_eq_zero.mp (by omega)
            subst hx
            subst hR'
            have h1 : P.length + 1 = ThresholdBufferSize := by omega
            simp only [runBuf, nextBufferIndex, if_pos h20]
            simp [h1]
          · have hnext : nextBufferIndex P.length = (P ++ [x]).length := by
              simp [nextBufferIndex, h20]
            have happ : P ++ x :: R' = (P ++ [x]) ++ R' := by simp
            rw [happ, hnext,
              ih (P ++ [x]) R'
                (by simp only [List.length_append, List.length_singleton,
                  List.length_cons, List.length_nil]; omega)
                (by simp only [List.length_append, List.length_singleton,
                  List.length_cons, List.length_nil]; omega)
                (by simp only [List.length_append, List.length_singleton,
                  List.length_cons, List.length_nil]; omega)]
            simp only [Prod.mk.injEq, List.length_append, List.length_singleton,
              List.length_cons, List.length_nil, List.drop_succ_cons]
            refine ⟨by simp, ?_⟩
            split_ifs <;> omega

lemma runBuf_cycle (l b : List Nat) (i : Nat)
    (hb : b.length = ThresholdBufferSize) (hi : i < ThresholdBufferSize)
    (hl : l.length = ThresholdBufferSize) :
    (runBuf b i l).1 =
      l.drop (ThresholdBufferSize - i) ++ l.take (ThresholdBufferSize - i) := by
  have hPlen : (b.take i).length = i := by
    rw [List.length_take, hb]
    exact Nat.min_eq_left (le_of_lt hi)
  have hl1 : (l.take (ThresholdBufferSize - i)).length = ThresholdBufferSize - i := by
    rw [List.length_take, hl]
    exact Nat.min_eq_left (by omega)
  have hl2 : (l.drop (ThresholdBufferSize - i)).length = i := by
    rw [List.length_drop, hl]
    omega
  have hfill1 := runBuf_fill (l.take (ThresholdBufferSize - i)) (b.take i) (b.drop i) i
      hPlen.symm (by rw [hPlen]; exact hi)
      (by rw [hPlen, hl1]; omega)
      (by rw [hPlen, List.length_drop, hb]; omega)
  rw [List.take_append_drop] at hfill1
  have hnil : (b.drop i).drop (ThresholdBufferSize - i) = [] := by
    rw [List.drop_drop]
    have he : i + (ThresholdBufferSize - i) = ThresholdBufferSize := by omega
    rw [he, ← hb, List.drop_length]
  have hfst1 : (runBuf b i (l.take (ThresholdBufferSize - i))).1 =
      b.take i ++ l.take (ThresholdBufferSize - i) := by
    rw [hfill1]
    simp only [hl1, hnil]
    simp
  have hsnd1 : (runBuf b i (l.take (ThresholdBufferSize - i))).2 = 0 := by
    rw [hfill1]
    simp only [hPlen, hl1]
    rw [if_pos (by omega : i + (ThresholdBufferSize - i) = ThresholdBufferSize)]
  conv_lhs => rw [← List.take_append_drop (ThresholdBufferSize - i) l]
  rw [runBuf_append, hfst1, hsnd1]
  have hfill2 := runBuf_fill (l.drop (ThresholdBufferSize - i)) []
      (b.take i ++ l.take (ThresholdBufferSize - i)) 0 rfl
      (by simp [ThresholdBufferSize])
      (by simp only [List.length_nil, Nat.zero_add, hl2]; omega)
      (by simp only [List.length_nil, List.length_append, hPlen, hl1]; omega)
  simp only [List.nil_append] at hfill2
  have hdropmid : (b.take i ++ l.take (ThresholdBufferSize - i)).drop i =
      l.take (ThresholdBufferSize - i) := by
    have h := List.drop_left (b.take i) (l.take (ThresholdBufferSize - i))
    rw [hPlen] at h
    exact h
  rw [hfill2]
  have hidx2 : l.length - (ThresholdBufferSize - i) = i := by omega
  simp [hidx2, hdropmid]

lemma runBuf_sum_last (l b : List Nat) (i : Nat)
    (hb : b.length = ThresholdBufferSize) (hi : i < ThresholdBufferSize)
    (hl : ThresholdBufferSize ≤ l.length) :
    (runBuf b i l).1.sum = (l.drop (l.length - ThresholdBufferSize)).sum := by
  conv_lhs => rw [← List.take_append_drop (l.length - ThresholdBufferSize) l]
  rw [runBuf_append]
  have hb' : (runBuf b i (l.take (l.length - ThresholdBufferSize))).1.length =
      ThresholdBufferSize := by rw [runBuf_length, hb]
  have hi' : (runBuf b i (l.take (l.length - ThresholdBufferSize))).2 <
      ThresholdBufferSize := by
    rw [runBuf_idx _ _ _ hi]
    exact Nat.mod_lt _ (by simp [ThresholdBufferSize])
  have hlen2 : (l.drop (l.length - ThresholdBufferSize)).length =
      ThresholdBufferSize := by
    rw [List.length_drop]
    omega
  rw [runBuf_cycle _ _ _ hb' hi' hlen2, List.sum_append, Nat.add_comm,
    ← List.sum_append, List.take_append_drop]

@[simp] lemma updateThresholds_thresholdBufferIndex (s : SensorState) (lp rp ip : Nat) :
    (updateThresholds s lp rp ip).thresholdBufferIndex =
      nextBufferIndex s.thresholdBufferIndex := rfl

lemma runThresholds_leftBuffer (ts : List (Nat × Nat × Nat)) (s : SensorState) :
    (runThresholds s ts).capLeftThresholdBuffer =
      (runBuf s.capLeftThresholdBuffer s.thresholdBufferIndex
        (ts.map (fun t => t.1))).1 := by
  induction ts generalizing s with
  | nil => rfl
  | cons t ts ih =>
      simp only [runThresholds, List.map_cons, runBuf]
      exact ih (updateThresholds s t.1 t.2.1 t.2.2)

lemma runThresholds_rightBuffer (ts : List (Nat × Nat × Nat)) (s : SensorState) :
    (runThresholds s ts).capRightThresholdBuffer =
      (runBuf s.capRightThresholdBuffer s.thresholdBufferIndex
        (ts.map (fun t => t.2.1))).1 := by
  induction ts generalizing s with
  | nil => rfl
  | cons t ts ih =>
      simp only [runThresholds, List.map_cons, runBuf]
      exact ih (updateThresholds s t.1 t.2.1 t.2.2)

lemma runThresholds_impBuffer (ts : List (Nat × Nat × Nat)) (s : SensorState) :
    (runThresholds s ts).impThresholdBuffer =
      (runBuf s.impThresholdBuffer s.thresholdBufferIndex
        (ts.map (fun t => t.2.2))).1 := by
  induction ts generalizing s with
  | nil => rfl
  | cons t ts ih =>
      simp only [runThresholds, List.map_cons, runBuf]
      exact ih (updateThresholds s t.1 t.2.1 t.2.2)

lemma runThresholds_index (ts : List (Nat × Nat × Nat)) (s : SensorState)
    (hi : s.thresholdBufferIndex < ThresholdBufferSize) :
    (runThresholds s ts).thresholdBufferIndex =
      (s.thresholdBufferIndex + ts.length) % ThresholdBufferSize := by
  induction ts generalizing s with
  | nil => simp [runThresholds, Nat.mod_eq_of_lt hi]
  | cons t ts ih =>
      simp only [runThresholds, List.length_cons]
      rw [ih _ (by
        rw [updateThresholds_thresholdBufferIndex]
        exact nextBufferIndex_lt _)]
      rw [updateThresholds_thresholdBufferIndex]
      unfold nextBufferIndex ThresholdBufferSize at *
      split <;> omega

lemma updateThresholds_left_eq (s : SensorState) (lp rp ip : Nat) :
    (updateThresholds s lp rp ip).curCapLeftThreshold =
      arduinoMap ((updateThresholds s lp rp ip).capLeftThresholdBuffer.sum /
        ThresholdBufferSize) 0 1023 minCapThreshold maxCapThreshold := rfl

lemma updateThresholds_right_eq (s : SensorState) (lp rp ip : Nat) :
    (updateThresholds s lp rp ip).curCapRightThreshold =
      arduinoMap ((updateThresholds s lp rp ip).capRightThresholdBuffer.sum /
        ThresholdBufferSize) 0 1023 minCapThreshold maxCapThreshold := rfl

lemma updateThresholds_imp_eq (s : SensorState) (lp rp ip : Nat) :
    (updateThresholds s lp rp ip).curImpThreshold =
      (updateThresholds s lp rp ip).impThresholdBuffer.sum /
        ThresholdBufferSize := rfl

set_option maxRecDepth 1024 in
lemma runThresholds_values (ts : List (Nat × Nat × Nat)) (s : SensorState)
    (h : ts ≠ []) :
    (runThresholds s ts).curCapLeftThreshold =
      arduinoMap ((runThresholds s ts).capLeftThresholdBuffer.sum / ThresholdBufferSize)
        0 1023 minCapThreshold maxCapThreshold ∧
    (runThresholds s ts).curCapRightThreshold =
      arduinoMap ((runThresholds s ts).capRightThresholdBuffer.sum / ThresholdBufferSize)
        0 1023 minCapThreshold maxCapThreshold ∧
    (runThresholds s ts).curImpThreshold =
      (runThresholds s ts).impThresholdBuffer.sum / ThresholdBufferSize := by
  induction ts generalizing s with
  | nil => exact absurd rfl h
  | cons t ts ih =>
      cases ts with
      | nil =>
          simp only [runThresholds]
          exact ⟨updateThresholds_left_eq _ _ _ _, updateThresholds_right_eq _ _ _ _,
            updateThresholds_imp_eq _ _ _ _⟩
      | cons t2 ts2 =>
          have hstep : runThresholds s (t :: t2 :: ts2) =
              runThresholds (updateThresholds s t.1 t.2.1 t.2.2) (t2 :: ts2) := by
            simp only [runThresholds]
          rw [hstep]
          exact ih _ (by simp)

/-- C3: for every sequence of ≥ N = 20 calibration ticks, the value
delivered by the buffered read on the last tick equals the truncated
arithmetic mean of exactly the last N samples of that channel (the raw
mean for the impedance channel, the mapped mean for the two capacitive
channels), and the single write cursor shared by all three channels has
advanced exactly once per tick, wrapping modulo N. -/
theorem updateThresholds_c3 (s : SensorState) (ts : List (Nat × Nat × Nat))
    (hL : s.capLeftThresholdBuffer.length = ThresholdBufferSize)
    (hR : s.capRightThresholdBuffer.length = ThresholdBufferSize)
    (hI : s.impThresholdBuffer.length = ThresholdBufferSize)
    (hidx : s.thresholdBufferIndex < ThresholdBufferSize)
    (hlen : ThresholdBufferSize ≤ ts.length) :
    (runThresholds s ts).curCapLeftThreshold =
      arduinoMap (((ts.map (fun t => t.1)).drop (ts.length - ThresholdBufferSize)).sum /
        ThresholdBufferSize) 0 1023 minCapThreshold maxCapThreshold ∧
    (runThresholds s ts).curCapRightThreshold =
      arduinoMap (((ts.map (fun t => t.2.1)).drop (ts.length - ThresholdBufferSize)).sum /
        ThresholdBufferSize) 0 1023 minCapThreshold maxCapThreshold ∧
    (runThresholds s ts).curImpThreshold =
      ((ts.map (fun t => t.2.2)).drop (ts.length - ThresholdBufferSize)).sum /
        ThresholdBufferSize ∧
    (runThresholds s ts).thresholdBufferIndex =
      (s.thresholdBufferIndex + ts.length) % ThresholdBufferSize := by
  have hne : ts ≠ [] := by
    intro he
    rw [he] at hlen
    simp [ThresholdBufferSize] at hlen
  obtain ⟨v1, v2, v3⟩ := runThresholds_values ts s hne
  refine ⟨?_, ?_, ?_, runThresholds_index ts s hidx⟩
  · rw [v1, runThresholds_leftBuffer ts s,
      runBuf_sum_last _ _ _ hL hidx (by simpa using hlen)]
    simp
  · rw [v2, runThresholds_rightBuffer ts s,
      runBuf_sum_last _ _ _ hR hidx (by simpa using hlen)]
    simp
  · rw [v3, runThresholds_impBuffer ts s,
      runBuf_sum_last _ _ _ hI hidx (by simpa using hlen)]
    simp

/-- C3 witness: from the boot state, twenty calibration ticks with constant
pot samples (100, 200, 300) produce an impedance threshold of 300 (the mean
of the last 20 impedance samples), a left capacitive threshold equal to the
mapped mean, and a cursor back at slot 0. -/
theorem updateThresholds_c3_witness :
    (setup 0).impThresholdBuffer.length = ThresholdBufferSize ∧
    (setup 0).thresholdBufferIndex < ThresholdBufferSize ∧
    ThresholdBufferSize ≤ (List.replicate 20 ((100 : Nat), (200 : Nat), (300 : Nat))).length ∧
    (runThresholds (setup 0) (List.replicate 20 (100, 200, 300))).curImpThreshold = 300 ∧
    (runThresholds (setup 0) (List.replicate 20 (100, 200, 300))).curCapLeftThreshold =
      arduinoMap 100 0 1023 minCapThreshold maxCapThreshold ∧
    (runThresholds (setup 0) (List.replicate 20 (100, 200, 300))).thresholdBufferIndex = 0 := by
  refine ⟨rfl, by decide, by decide, ?_, ?_, ?_⟩
  · rw [(updateThresholds_c3 (setup 0) (List.replicate 20 (100, 200, 300))
      rfl rfl rfl (by decide) (by decide)).2.2.1]
    decide
  · rw [(updateThresholds_c3 (setup 0) (List.replicate 20 (100, 200, 300))
      rfl rfl rfl (by decide) (by decide)).1]
    decide
  · rw [(updateThresholds_c3 (setup 0) (List.replicate 20 (100, 200, 300))
      rfl rfl rfl (by decide) (by decide)).2.2.2]
    decide

/-! ### C8: monotone threshold mapping; scaled cap thresholds, unscaled
impedance threshold -/

/-- C8: the capacitive threshold mapping is monotone (a higher buffered pot
reading never produces a lower capacitive threshold), the two capacitive
thresholds are the buffered pot reads mapped from the 0–1023 range into the
0–15000 sensitivity range, and the impedance threshold is the unscaled
buffered pot read. -/
theorem updateThresholds_c8 :
    (∀ a b : Nat, a ≤ b →
      arduinoMap a 0 1023 minCapThreshold maxCapThreshold ≤
        arduinoMap b 0 1023 minCapThreshold maxCapThreshold) ∧
    (∀ (s : SensorState) (lp rp ip : Nat),
      (updateThresholds s lp rp ip).curCapLeftThreshold =
        arduinoMap (bufferedThresholdRead s.capLeftThresholdBuffer
          s.thresholdBufferIndex lp).2 0 1023 minCapThreshold maxCapThreshold ∧
      (updateThresholds s lp rp ip).curCapRightThreshold =
        arduinoMap (bufferedThresholdRead s.capRightThresholdBuffer
          s.thresholdBufferIndex rp).2 0 1023 minCapThreshold maxCapThreshold ∧
      (updateThresholds s lp rp ip).curImpThreshold =
        (bufferedThresholdRead s.impThresholdBuffer s.thresholdBufferIndex ip).2) := by
  refine ⟨?_, fun s lp rp ip => ⟨rfl, rfl, rfl⟩⟩
  intro a b hab
  unfold arduinoMap
  simp only [Nat.sub_zero]
  exact Nat.add_le_add_right
    (Nat.div_le_div_right (Nat.mul_le_mul_right _ hab)) _

/-- C8 witness: the mapping is monotone at the concrete pair 3 ≤ 5. -/
theorem updateThresholds_c8_witness :
    (3 : Nat) ≤ 5 ∧
    arduinoMap 3 0 1023 minCapThreshold maxCapThreshold ≤
      arduinoMap 5 0 1023 minCapThreshold maxCapThreshold :=
  ⟨by decide, updateThresholds_c8.1 3 5 (by decide)⟩

end HumanCircuit
